import Mathlib

/-!
Verification of the rusty-kaspa-stratum bridge front end (`src/main.rs`).

The file embeds, as executable Lean definitions:
* the `yaml_rust::Yaml` value type and the accessors `main.rs` uses
  (`as_str`, `as_bool`, `as_i64`, `as_f64`, `doc["key"]` indexing);
* `BridgeConfig::default` and `BridgeConfig::from_yaml` (lines 26-119);
* the ANSI-stripping pass of `CustomFormatter::format_event` (lines 186-207);
* spec-modelled components of the bridge core (Job Builder, Share Validator,
  VarDiff Controller) that live in the external `rustbridge` crate and are
  not part of this repository's sources.

Machine integers are modelled as `Nat`/`Int` with explicit reductions where
Rust's `as` casts wrap or saturate; YAML floats are modelled as exact
rationals (the rounding of a decimal literal to the nearest `f64` during
parsing is abstracted away).
-/

namespace RustyKaspaStratum

/-- Model of the `yaml_rust::Yaml` value type (`Real`, `Integer`, `String`,
`Boolean`, `Array`, `Hash`, `Null`, `BadValue`). `real` carries the numeric
value of the literal as an exact rational; `int` carries the `i64` value as an
integer (the loader only produces values in the `i64` range). Hash keys are
restricted to strings, matching the only lookups `main.rs` performs
(`doc["key"]` builds a `Yaml::String` key); aliases are resolved at load time
and do not appear in loaded documents. -/
inductive Yaml where
  | real (q : ℚ)
  | int (n : ℤ)
  | str (s : String)
  | bool (b : Bool)
  | arr (elems : List Yaml)
  | hash (entries : List (String × Yaml))
  | null
  | badValue

/-- Model of `yaml_rust`'s `Index<&str> for Yaml`: on a `Hash` it looks up the
key and yields `BadValue` when absent; on any non-hash value it yields
`BadValue`. Loaded hashes have pairwise-distinct keys (the loader's map
overwrites on duplicate insert), so first-match lookup is faithful. -/
def Yaml.index (y : Yaml) (k : String) : Yaml :=
  match y with
  | .hash entries => (entries.lookup k).getD .badValue
  | _ => .badValue

/-- Model of `Yaml::as_str`: `Some` exactly on `String` values. -/
def Yaml.as_str : Yaml → Option String
  | .str s => some s
  | _ => none

/-- Model of `Yaml::as_bool`: `Some` exactly on `Boolean` values. -/
def Yaml.as_bool : Yaml → Option Bool
  | .bool b => some b
  | _ => none

/-- Model of `Yaml::as_i64`: `Some` exactly on `Integer` values. -/
def Yaml.as_i64 : Yaml → Option ℤ
  | .int n => some n
  | _ => none

/-- Model of `Yaml::as_f64`: `Some` exactly on `Real` values (yaml-rust parses
the stored literal; here the parsed value is carried directly). -/
def Yaml.as_f64 : Yaml → Option ℚ
  | .real q => some q
  | _ => none

/-- Rust's `v as u32` on an `i64`: truncation to the low 32 bits, i.e. the
value modulo `2^32` (Euclidean remainder). -/
def i64_as_u32 (n : ℤ) : ℕ := (n % 2 ^ 32).toNat

/-- Rust's `v as u8` on an `i64`: truncation to the low 8 bits. -/
def i64_as_u8 (n : ℤ) : ℕ := (n % 2 ^ 8).toNat

/-- Rust's `v as u64` on an `i64`: two's-complement reinterpretation, i.e. the
value modulo `2^64`. -/
def i64_as_u64 (n : ℤ) : ℕ := (n % 2 ^ 64).toNat

/-- Rust's `v as u64` on an `f64` (saturating cast): negative values become
`0`, values at or above `2^64` become `2^64 - 1`, and in-range values are
truncated toward zero. The float is modelled as an exact rational. -/
def f64_as_u64 (q : ℚ) : ℕ := if q < 0 then 0 else min q.floor.toNat (2 ^ 64 - 1)

/-- The `BridgeConfig` struct of `main.rs` (lines 10-24). `block_wait_time` is
a `Duration` built with `Duration::from_millis`, modelled by its count of
milliseconds; `min_share_diff`/`shares_per_min` are `u32` and
`extranonce_size` is `u8`, modelled as `Nat`. -/
@[ext]
structure BridgeConfig where
  stratum_port : String
  kaspad_address : String
  prom_port : String
  print_stats : Bool
  log_to_file : Bool
  health_check_port : String
  block_wait_time : ℕ
  min_share_diff : ℕ
  var_diff : Bool
  shares_per_min : ℕ
  var_diff_stats : Bool
  extranonce_size : ℕ
  pow2_clamp : Bool
deriving DecidableEq, Repr

/-- `impl Default for BridgeConfig` (lines 26-44). -/
def BridgeConfig.default : BridgeConfig where
  stratum_port := ":5555"
  kaspad_address := "localhost:16110"
  prom_port := ":2114"
  print_stats := true
  log_to_file := true
  health_check_port := ""
  block_wait_time := 1000
  min_share_diff := 8192
  var_diff := true
  shares_per_min := 20
  var_diff_stats := false
  extranonce_size := 0
  pow2_clamp := false

/-- Rust's `port.starts_with(':')` on a `String`. -/
def startsWithColon (s : String) : Bool := s.data.head? == some ':'

/-- The port normalization of `from_yaml` (lines 54-58 and 66-70): keep the
string when it starts with `':'`, otherwise prepend `":"`
(`format!(":{}", port)`). -/
def normalizePort (p : String) : String :=
  if startsWithColon p then p else ":" ++ p

/-- Lines 53-59 of `from_yaml`: the `stratum_port` update. -/
def setStratumPort (doc : Yaml) (c : BridgeConfig) : BridgeConfig :=
  match (doc.index "stratum_port").as_str with
  | some port => { c with stratum_port := normalizePort port }
  | none => c

/-- Lines 61-63 of `from_yaml`: the `kaspad_address` update. -/
def setKaspadAddress (doc : Yaml) (c : BridgeConfig) : BridgeConfig :=
  match (doc.index "kaspad_address").as_str with
  | some addr => { c with kaspad_address := addr }
  | none => c

/-- Lines 65-71 of `from_yaml`: the `prom_port` update. -/
def setPromPort (doc : Yaml) (c : BridgeConfig) : BridgeConfig :=
  match (doc.index "prom_port").as_str with
  | some port => { c with prom_port := normalizePort port }
  | none => c

/-- Lines 73-75 of `from_yaml`: the `print_stats` update. -/
def setPrintStats (doc : Yaml) (c : BridgeConfig) : BridgeConfig :=
  match (doc.index "print_stats").as_bool with
  | some stats => { c with print_stats := stats }
  | none => c

/-- Lines 77-79 of `from_yaml`: the `log_to_file` update. -/
def setLogToFile (doc : Yaml) (c : BridgeConfig) : BridgeConfig :=
  match (doc.index "log_to_file").as_bool with
  | some log => { c with log_to_file := log }
  | none => c

/-- Lines 81-83 of `from_yaml`: the `health_check_port` update (no
normalization here, unlike the two other ports). -/
def setHealthCheckPort (doc : Yaml) (c : BridgeConfig) : BridgeConfig :=
  match (doc.index "health_check_port").as_str with
  | some port => { c with health_check_port := port }
  | none => c

/-- Lines 85-87 of `from_yaml`: the `min_share_diff` update (`diff as u32`). -/
def setMinShareDiff (doc : Yaml) (c : BridgeConfig) : BridgeConfig :=
  match (doc.index "min_share_diff").as_i64 with
  | some diff => { c with min_share_diff := i64_as_u32 diff }
  | none => c

/-- Lines 89-91 of `from_yaml`: the `var_diff` update. -/
def setVarDiff (doc : Yaml) (c : BridgeConfig) : BridgeConfig :=
  match (doc.index "var_diff").as_bool with
  | some vd => { c with var_diff := vd }
  | none => c

/-- Lines 93-95 of `from_yaml`: the `shares_per_min` update (`spm as u32`). -/
def setSharesPerMin (doc : Yaml) (c : BridgeConfig) : BridgeConfig :=
  match (doc.index "shares_per_min").as_i64 with
  | some spm => { c with shares_per_min := i64_as_u32 spm }
  | none => c

/-- Lines 97-99 of `from_yaml`: the `var_diff_stats` update. -/
def setVarDiffStats (doc : Yaml) (c : BridgeConfig) : BridgeConfig :=
  match (doc.index "var_diff_stats").as_bool with
  | some vds => { c with var_diff_stats := vds }
  | none => c

/-- Lines 101-103 of `from_yaml`: the `extranonce_size` update (`ens as u8`). -/
def setExtranonceSize (doc : Yaml) (c : BridgeConfig) : BridgeConfig :=
  match (doc.index "extranonce_size").as_i64 with
  | some ens => { c with extranonce_size := i64_as_u8 ens }
  | none => c

/-- Lines 105-107 of `from_yaml`: the `pow2_clamp` update. -/
def setPow2Clamp (doc : Yaml) (c : BridgeConfig) : BridgeConfig :=
  match (doc.index "pow2_clamp").as_bool with
  | some clamp => { c with pow2_clamp := clamp }
  | none => c

/-- Lines 109-116 of `from_yaml`: the `block_wait_time` update. The `as_i64`
branch is tried first (`bwt as u64`, wrapping); the `as_f64` branch second
(`bwt as u64` on a float, saturating). -/
def setBlockWaitTime (doc : Yaml) (c : BridgeConfig) : BridgeConfig :=
  match (doc.index "block_wait_time").as_i64 with
  | some bwt => { c with block_wait_time := i64_as_u64 bwt }
  | none =>
    match (doc.index "block_wait_time").as_f64 with
    | some bwt => { c with block_wait_time := f64_as_u64 bwt }
    | none => c

/-- The body of `from_yaml` after document selection (lines 51-117): start
from the default configuration and apply the thirteen keyed updates in source
order. -/
def applyDoc (doc : Yaml) : BridgeConfig :=
  setBlockWaitTime doc <| setPow2Clamp doc <| setExtranonceSize doc <|
    setVarDiffStats doc <| setSharesPerMin doc <| setVarDiff doc <|
      setMinShareDiff doc <| setHealthCheckPort doc <| setLogToFile doc <|
        setPrintStats doc <| setPromPort doc <| setKaspadAddress doc <|
          setStratumPort doc BridgeConfig.default

/-- `BridgeConfig::from_yaml` (lines 47-119) at the boundary of the external
YAML parser: `loaded` is the outcome of `YamlLoader::load_from_str(content)`
(a parse error or the list of documents). A parse error propagates via `?`;
`docs.get(0).ok_or("empty YAML document")?` fails on an empty list; otherwise
the first document is applied and the result returned with `Ok`. -/
def from_yaml (loaded : Except String (List Yaml)) : Except String BridgeConfig :=
  match loaded with
  | .error e => .error e
  | .ok docs =>
    match docs.head? with
    | none => .error "empty YAML document"
    | some doc => .ok (applyDoc doc)

/-- Each keyed update rewrites exactly one field, leaving the rest of the
configuration untouched. -/
theorem setStratumPort_eq (doc : Yaml) (c : BridgeConfig) :
    setStratumPort doc c =
      { c with stratum_port :=
          match (doc.index "stratum_port").as_str with
          | some p => normalizePort p
          | none => c.stratum_port } := by
  unfold setStratumPort; cases (doc.index "stratum_port").as_str <;> rfl

theorem setKaspadAddress_eq (doc : Yaml) (c : BridgeConfig) :
    setKaspadAddress doc c =
      { c with kaspad_address :=
          match (doc.index "kaspad_address").as_str with
          | some a => a
          | none => c.kaspad_address } := by
  unfold setKaspadAddress; cases (doc.index "kaspad_address").as_str <;> rfl

theorem setPromPort_eq (doc : Yaml) (c : BridgeConfig) :
    setPromPort doc c =
      { c with prom_port :=
          match (doc.index "prom_port").as_str with
          | some p => normalizePort p
          | none => c.prom_port } := by
  unfold setPromPort; cases (doc.index "prom_port").as_str <;> rfl

theorem setPrintStats_eq (doc : Yaml) (c : BridgeConfig) :
    setPrintStats doc c =
      { c with print_stats :=
          match (doc.index "print_stats").as_bool with
          | some b => b
          | none => c.print_stats } := by
  unfold setPrintStats; cases (doc.index "print_stats").as_bool <;> rfl

theorem setLogToFile_eq (doc : Yaml) (c : BridgeConfig) :
    setLogToFile doc c =
      { c with log_to_file :=
          match (doc.index "log_to_file").as_bool with
          | some b => b
          | none => c.log_to_file } := by
  unfold setLogToFile; cases (doc.index "log_to_file").as_bool <;> rfl

theorem setHealthCheckPort_eq (doc : Yaml) (c : BridgeConfig) :
    setHealthCheckPort doc c =
      { c with health_check_port :=
          match (doc.index "health_check_port").as_str with
          | some p => p
          | none => c.health_check_port } := by
  unfold setHealthCheckPort; cases (doc.index "health_check_port").as_str <;> rfl

theorem setMinShareDiff_eq (doc : Yaml) (c : BridgeConfig) :
    setMinShareDiff doc c =
      { c with min_share_diff :=
          match (doc.index "min_share_diff").as_i64 with
          | some v => i64_as_u32 v
          | none => c.min_share_diff } := by
  unfold setMinShareDiff; cases (doc.index "min_share_diff").as_i64 <;> rfl

theorem setVarDiff_eq (doc : Yaml) (c : BridgeConfig) :
    setVarDiff doc c =
      { c with var_diff :=
          match (doc.index "var_diff").as_bool with
          | some b => b
          | none => c.var_diff } := by
  unfold setVarDiff; cases (doc.index "var_diff").as_bool <;> rfl

theorem setSharesPerMin_eq (doc : Yaml) (c : BridgeConfig) :
    setSharesPerMin doc c =
      { c with shares_per_min :=
          match (doc.index "shares_per_min").as_i64 with
          | some v => i64_as_u32 v
          | none => c.shares_per_min } := by
  unfold setSharesPerMin; cases (doc.index "shares_per_min").as_i64 <;> rfl

theorem setVarDiffStats_eq (doc : Yaml) (c : BridgeConfig) :
    setVarDiffStats doc c =
      { c with var_diff_stats :=
          match (doc.index "var_diff_stats").as_bool with
          | some b => b
          | none => c.var_diff_stats } := by
  unfold setVarDiffStats; cases (doc.index "var_diff_stats").as_bool <;> rfl

theorem setExtranonceSize_eq (doc : Yaml) (c : BridgeConfig) :
    setExtranonceSize doc c =
      { c with extranonce_size :=
          match (doc.index "extranonce_size").as_i64 with
          | some v => i64_as_u8 v
          | none => c.extranonce_size } := by
  unfold setExtranonceSize; cases (doc.index "extranonce_size").as_i64 <;> rfl

theorem setPow2Clamp_eq (doc : Yaml) (c : BridgeConfig) :
    setPow2Clamp doc c =
      { c with pow2_clamp :=
          match (doc.index "pow2_clamp").as_bool with
          | some b => b
          | none => c.pow2_clamp } := by
  unfold setPow2Clamp; cases (doc.index "pow2_clamp").as_bool <;> rfl

theorem setBlockWaitTime_eq (doc : Yaml) (c : BridgeConfig) :
    setBlockWaitTime doc c =
      { c with block_wait_time :=
          match (doc.index "block_wait_time").as_i64 with
          | some n => i64_as_u64 n
          | none =>
            match (doc.index "block_wait_time").as_f64 with
            | some q => f64_as_u64 q
            | none => c.block_wait_time } := by
  unfold setBlockWaitTime
  cases (doc.index "block_wait_time").as_i64 <;>
    [cases (doc.index "block_wait_time").as_f64 <;> rfl; rfl]

/-- Field-wise characterization of the `from_yaml` body: every configuration
field is determined solely by the value found at its own key, falling back to
the default when the key is absent or of the wrong YAML type. -/
theorem applyDoc_fields (doc : Yaml) :
    applyDoc doc =
      { stratum_port :=
          match (doc.index "stratum_port").as_str with
          | some p => normalizePort p
          | none => ":5555"
        kaspad_address :=
          match (doc.index "kaspad_address").as_str with
          | some a => a
          | none => "localhost:16110"
        prom_port :=
          match (doc.index "prom_port").as_str with
          | some p => normalizePort p
          | none => ":2114"
        print_stats :=
          match (doc.index "print_stats").as_bool with
          | some b => b
          | none => true
        log_to_file :=
          match (doc.index "log_to_file").as_bool with
          | some b => b
          | none => true
        health_check_port :=
          match (doc.index "health_check_port").as_str with
          | some p => p
          | none => ""
        block_wait_time :=
          match (doc.index "block_wait_time").as_i64 with
          | some n => i64_as_u64 n
          | none =>
            match (doc.index "block_wait_time").as_f64 with
            | some q => f64_as_u64 q
            | none => 1000
        min_share_diff :=
          match (doc.index "min_share_diff").as_i64 with
          | some v => i64_as_u32 v
          | none => 8192
        var_diff :=
          match (doc.index "var_diff").as_bool with
          | some b => b
          | none => true
        shares_per_min :=
          match (doc.index "shares_per_min").as_i64 with
          | some v => i64_as_u32 v
          | none => 20
        var_diff_stats :=
          match (doc.index "var_diff_stats").as_bool with
          | some b => b
          | none => false
        extranonce_size :=
          match (doc.index "extranonce_size").as_i64 with
          | some v => i64_as_u8 v
          | none => 0
        pow2_clamp :=
          match (doc.index "pow2_clamp").as_bool with
          | some b => b
          | none => false } := by
  unfold applyDoc
  simp only [setStratumPort_eq, setKaspadAddress_eq, setPromPort_eq,
    setPrintStats_eq, setLogToFile_eq, setHealthCheckPort_eq,
    setMinShareDiff_eq, setVarDiff_eq, setSharesPerMin_eq,
    setVarDiffStats_eq, setExtranonceSize_eq, setPow2Clamp_eq,
    setBlockWaitTime_eq]
  rfl

/-- The thirteen configuration keys read by `from_yaml`. -/
def configKeys : List String :=
  ["stratum_port", "kaspad_address", "prom_port", "print_stats",
   "log_to_file", "health_check_port", "min_share_diff", "var_diff",
   "shares_per_min", "var_diff_stats", "extranonce_size", "pow2_clamp",
   "block_wait_time"]

/-- A normalized port string always starts with a colon. -/
theorem startsWithColon_normalizePort (p : String) :
    startsWithColon (normalizePort p) = true := by
  unfold normalizePort
  split
  · assumption
  · rfl

/-- C1 (counterexample): the claim says a YAML float value for
`block_wait_time` is truncated toward zero to whole milliseconds, which would
give `2^64` milliseconds for the float `18446744073709551616.0`; the code's
`bwt as u64` saturates instead, storing `2^64 - 1` milliseconds. -/
theorem C1_counterexample :
    (applyDoc (Yaml.hash
        [("block_wait_time", Yaml.real (18446744073709551616 : ℚ))])).block_wait_time
      ≠ 18446744073709551616 := by decide

/-- C1 (amended): `from_yaml` sets `block_wait_time` to exactly `n`
milliseconds when the key holds an integer `n` (a negative `n` wrapping modulo
`2^64` through the `i64`-to-`u64` cast); when the key holds a YAML float `f`,
the value is truncated toward zero to whole milliseconds, saturating at the
`u64` range (negative floats become `0`, floats at or above `2^64` become
`2^64 - 1`); when the key is absent or of another type, the default of `1000`
milliseconds is kept. The integer branch is tried before the float branch
(lines 110-116; the two branches match disjoint YAML value kinds). -/
theorem C1_block_wait_time (doc : Yaml) :
    (applyDoc doc).block_wait_time =
      match doc.index "block_wait_time" with
      | .int n => (n % 2 ^ 64).toNat
      | .real q => if q < 0 then 0 else min q.floor.toNat (2 ^ 64 - 1)
      | _ => 1000 := by
  rw [applyDoc_fields]
  cases doc.index "block_wait_time" <;> rfl

/-- C2: `BridgeConfig::default` yields `stratum_port ":5555"`,
`kaspad_address "localhost:16110"`, `prom_port ":2114"`, `print_stats true`,
`log_to_file true`, empty `health_check_port`, `block_wait_time` 1000 ms,
`min_share_diff 8192`, `var_diff true`, `shares_per_min 20`,
`var_diff_stats false`, `extranonce_size 0`, `pow2_clamp false`; and
`from_yaml` applied to a document containing none of the configuration keys
returns exactly this default configuration. -/
theorem C2_defaults (doc : Yaml)
    (h : ∀ k ∈ configKeys, doc.index k = Yaml.badValue) :
    from_yaml (Except.ok [doc]) = Except.ok BridgeConfig.default ∧
    BridgeConfig.default =
      { stratum_port := ":5555", kaspad_address := "localhost:16110",
        prom_port := ":2114", print_stats := true, log_to_file := true,
        health_check_port := "", block_wait_time := 1000,
        min_share_diff := 8192, var_diff := true, shares_per_min := 20,
        var_diff_stats := false, extranonce_size := 0,
        pow2_clamp := false } := by
  refine ⟨?_, rfl⟩
  show Except.ok (applyDoc doc) = _
  rw [applyDoc_fields]
  simp only [h "stratum_port" (by decide), h "kaspad_address" (by decide),
    h "prom_port" (by decide), h "print_stats" (by decide),
    h "log_to_file" (by decide), h "health_check_port" (by decide),
    h "min_share_diff" (by decide), h "var_diff" (by decide),
    h "shares_per_min" (by decide), h "var_diff_stats" (by decide),
    h "extranonce_size" (by decide), h "pow2_clamp" (by decide),
    h "block_wait_time" (by decide)]
  rfl

theorem C2_defaults_witness :
    from_yaml (Except.ok [Yaml.null]) = Except.ok BridgeConfig.default ∧
    BridgeConfig.default =
      { stratum_port := ":5555", kaspad_address := "localhost:16110",
        prom_port := ":2114", print_stats := true, log_to_file := true,
        health_check_port := "", block_wait_time := 1000,
        min_share_diff := 8192, var_diff := true, shares_per_min := 20,
        var_diff_stats := false, extranonce_size := 0,
        pow2_clamp := false } :=
  C2_defaults Yaml.null (fun _ _ => rfl)

/-- C3: when `stratum_port` (resp. `prom_port`) holds a string, `from_yaml`
stores it unchanged when it begins with `':'` and with `":"` prepended
otherwise; the stored port therefore always begins with `':'`, and parsing an
already-normalized port leaves it unchanged (idempotence). -/
theorem C3_port_normalization (doc : Yaml) :
    (∀ s : String, doc.index "stratum_port" = Yaml.str s →
      ((applyDoc doc).stratum_port =
        if startsWithColon s then s else ":" ++ s) ∧
      startsWithColon (applyDoc doc).stratum_port = true ∧
      (startsWithColon s = true → (applyDoc doc).stratum_port = s)) ∧
    (∀ t : String, doc.index "prom_port" = Yaml.str t →
      ((applyDoc doc).prom_port =
        if startsWithColon t then t else ":" ++ t) ∧
      startsWithColon (applyDoc doc).prom_port = true ∧
      (startsWithColon t = true → (applyDoc doc).prom_port = t)) := by
  constructor
  · intro s hs
    have h1 : (applyDoc doc).stratum_port = normalizePort s := by
      rw [applyDoc_fields]; simp only [hs]; rfl
    refine ⟨h1, ?_, ?_⟩
    · rw [h1]; exact startsWithColon_normalizePort s
    · intro h; rw [h1]; unfold normalizePort; rw [if_pos h]
  · intro t ht
    have h2 : (applyDoc doc).prom_port = normalizePort t := by
      rw [applyDoc_fields]; simp only [ht]; rfl
    refine ⟨h2, ?_, ?_⟩
    · rw [h2]; exact startsWithColon_normalizePort t
    · intro h; rw [h2]; unfold normalizePort; rw [if_pos h]

theorem C3_port_normalization_witness :
    (applyDoc (Yaml.hash
        [("stratum_port", Yaml.str "5555")])).stratum_port = ":5555" ∧
    (applyDoc (Yaml.hash
        [("prom_port", Yaml.str ":2114")])).prom_port = ":2114" :=
  ⟨(((C3_port_normalization (Yaml.hash
        [("stratum_port", Yaml.str "5555")])).1 "5555" rfl).1).trans
      (by decide),
   ((C3_port_normalization (Yaml.hash
        [("prom_port", Yaml.str ":2114")])).2 ":2114" rfl).2.2
      (by decide)⟩

/-- C4: `from_yaml` reads `min_share_diff` and `shares_per_min` as 64-bit
YAML integers stored as `u32` (the stored value is the integer modulo `2^32`),
reads `extranonce_size` as a 64-bit integer stored as `u8` (modulo `2^8`), and
performs no range check or rejection: parsing always succeeds with `Ok`. -/
theorem C4_integer_truncation (doc : Yaml) :
    ((applyDoc doc).min_share_diff =
      match (doc.index "min_share_diff").as_i64 with
      | some v => (v % 2 ^ 32).toNat
      | none => 8192) ∧
    ((applyDoc doc).shares_per_min =
      match (doc.index "shares_per_min").as_i64 with
      | some v => (v % 2 ^ 32).toNat
      | none => 20) ∧
    ((applyDoc doc).extranonce_size =
      match (doc.index "extranonce_size").as_i64 with
      | some v => (v % 2 ^ 8).toNat
      | none => 0) ∧
    from_yaml (Except.ok [doc]) = Except.ok (applyDoc doc) := by
  refine ⟨?_, ?_, ?_, rfl⟩ <;> (rw [applyDoc_fields]; rfl)

/-- C5 (frame): `from_yaml` modifies only the fields whose keys are present
with the expected YAML type; every field whose key is absent or of the wrong
type keeps its default, and each field is determined solely by its own key,
so setting one key never changes any other field. -/
theorem C5_frame (doc : Yaml) :
    applyDoc doc =
      { stratum_port :=
          match (doc.index "stratum_port").as_str with
          | some p => normalizePort p
          | none => ":5555"
        kaspad_address :=
          match (doc.index "kaspad_address").as_str with
          | some a => a
          | none => "localhost:16110"
        prom_port :=
          match (doc.index "prom_port").as_str with
          | some p => normalizePort p
          | none => ":2114"
        print_stats :=
          match (doc.index "print_stats").as_bool with
          | some b => b
          | none => true
        log_to_file :=
          match (doc.index "log_to_file").as_bool with
          | some b => b
          | none => true
        health_check_port :=
          match (doc.index "health_check_port").as_str with
          | some p => p
          | none => ""
        block_wait_time :=
          match (doc.index "block_wait_time").as_i64 with
          | some n => i64_as_u64 n
          | none =>
            match (doc.index "block_wait_time").as_f64 with
            | some q => f64_as_u64 q
            | none => 1000
        min_share_diff :=
          match (doc.index "min_share_diff").as_i64 with
          | some v => i64_as_u32 v
          | none => 8192
        var_diff :=
          match (doc.index "var_diff").as_bool with
          | some b => b
          | none => true
        shares_per_min :=
          match (doc.index "shares_per_min").as_i64 with
          | some v => i64_as_u32 v
          | none => 20
        var_diff_stats :=
          match (doc.index "var_diff_stats").as_bool with
          | some b => b
          | none => false
        extranonce_size :=
          match (doc.index "extranonce_size").as_i64 with
          | some v => i64_as_u8 v
          | none => 0
        pow2_clamp :=
          match (doc.index "pow2_clamp").as_bool with
          | some b => b
          | none => false } :=
  applyDoc_fields doc

/-- C9: `from_yaml` returns an error exactly when the YAML loader failed (the
parse error is propagated) or the input parsed to zero documents (producing
the error `"empty YAML document"`); for every input with at least one parsed
document it returns `Ok`, regardless of which keys are present or what types
their values have. -/
theorem C9_from_yaml_errors (loaded : Except String (List Yaml)) :
    (∀ e, loaded = Except.error e → from_yaml loaded = Except.error e) ∧
    (loaded = Except.ok [] →
      from_yaml loaded = Except.error "empty YAML document") ∧
    (∀ doc docs, loaded = Except.ok (doc :: docs) →
      from_yaml loaded = Except.ok (applyDoc doc)) := by
  refine ⟨?_, ?_, ?_⟩
  · intro e he; rw [he]; rfl
  · intro he; rw [he]; rfl
  · intro doc docs he; rw [he]; rfl

theorem C9_from_yaml_errors_witness :
    from_yaml (Except.error "parse error") = Except.error "parse error" ∧
    from_yaml (Except.ok []) = Except.error "empty YAML document" ∧
    from_yaml (Except.ok [Yaml.null]) = Except.ok (applyDoc Yaml.null) :=
  ⟨(C9_from_yaml_errors _).1 "parse error" rfl,
   (C9_from_yaml_errors _).2.1 rfl,
   (C9_from_yaml_errors _).2.2 Yaml.null [] rfl⟩

/-- The inner loop of the ANSI strip in `CustomFormatter::format_event`
(lines 195-201): consume characters up to and including the first `'m'`. -/
def skipEscape : List Char → List Char
  | [] => []
  | c :: rest => if c = 'm' then rest else skipEscape rest

theorem skipEscape_length_le (l : List Char) :
    (skipEscape l).length ≤ l.length := by
  induction l with
  | nil => simp [skipEscape]
  | cons c rest ih =>
    simp only [skipEscape, List.length_cons]
    split
    · exact Nat.le_succ _
    · exact Nat.le_trans ih (Nat.le_succ _)

/-- The ANSI-stripping pass of `CustomFormatter::format_event` (lines
186-207), on the character sequence of the message: every ESC character is
dropped; when an ESC is immediately followed by `'['`, everything up to and
including the first `'m'` is dropped as well (the source's two comparisons
`ch == '\x1b' || ch == '\u{001b}'` test the same character). -/
def stripAnsi : List Char → List Char
  | [] => []
  | c :: rest =>
    if c = '\x1b' then
      match rest with
      | '[' :: rest2 => stripAnsi (skipEscape rest2)
      | other => stripAnsi other
    else c :: stripAnsi rest
termination_by l => l.length
decreasing_by
  all_goals simp only [List.length_cons]
  all_goals first
    | omega
    | exact Nat.lt_succ_of_le
        (Nat.le_trans (skipEscape_length_le _) (Nat.le_succ _))

/-- The same pass on a Rust `String`, modelled through its character list. -/
def stripAnsiString (s : String) : String := String.mk (stripAnsi s.data)

/-- A character list contains an ANSI escape sequence when it has a segment
of the form `ESC '[' ... 'm'`. -/
def containsAnsiEscape (l : List Char) : Prop :=
  ∃ pre mid post, l = pre ++ '\x1b' :: '[' :: (mid ++ 'm' :: post)

theorem containsAnsiEscape_mem {l : List Char} (h : containsAnsiEscape l) :
    '\x1b' ∈ l := by
  obtain ⟨pre, mid, post, rfl⟩ := h
  simp

theorem stripAnsi_cons (c : Char) (rest : List Char) (h : c ≠ '\x1b') :
    stripAnsi (c :: rest) = c :: stripAnsi rest := by
  rcases rest with _ | ⟨c2, rest2⟩
  · rw [stripAnsi.eq_3 c [] (fun _ he => by cases he), if_neg h]
  · by_cases hc : c2 = '['
    · subst hc; rw [stripAnsi.eq_2, if_neg h]
    · rw [stripAnsi.eq_3 c (c2 :: rest2)
        (fun r2 he => hc (List.cons.inj he).1), if_neg h]

theorem stripAnsi_not_mem_esc (l : List Char) : '\x1b' ∉ stripAnsi l := by
  induction l using stripAnsi.induct with
  | case1 => simp [stripAnsi.eq_1]
  | case2 rest2 ih => rw [stripAnsi.eq_2, if_pos rfl]; exact ih
  | case3 other hne ih => rw [stripAnsi.eq_3 _ _ hne, if_pos rfl]; exact ih
  | case4 c rest hc ih =>
    rw [stripAnsi_cons c rest hc]
    intro hmem
    rcases List.mem_cons.mp hmem with he | hm
    · exact hc he.symm
    · exact ih hm

theorem stripAnsi_of_not_mem_esc {l : List Char} (h : '\x1b' ∉ l) :
    stripAnsi l = l := by
  induction l with
  | nil => rw [stripAnsi.eq_1]
  | cons c rest ih =>
    rw [stripAnsi_cons c rest (fun hc => h (hc ▸ List.mem_cons_self c rest))]
    exact congrArg (c :: ·) (ih fun hm => h (List.mem_cons_of_mem c hm))

theorem stripAnsi_idem (l : List Char) :
    stripAnsi (stripAnsi l) = stripAnsi l :=
  stripAnsi_of_not_mem_esc (stripAnsi_not_mem_esc l)

/-- C10: the ANSI-stripping pass of `CustomFormatter::format_event` produces,
for every input string, an output containing no escape sequence of the form
`ESC '[' ... 'm'` (indeed no ESC character at all); a string containing no ESC
character passes through unchanged; and the pass applied to its own output
returns it unchanged (idempotence). -/
theorem C10_ansi_strip (s : String) :
    ¬ containsAnsiEscape (stripAnsiString s).data ∧
    ('\x1b' ∉ s.data → stripAnsiString s = s) ∧
    stripAnsiString (stripAnsiString s) = stripAnsiString s := by
  refine ⟨fun h => ?_, fun h => ?_, ?_⟩
  · exact stripAnsi_not_mem_esc s.data (containsAnsiEscape_mem h)
  · show String.mk (stripAnsi s.data) = s
    rw [stripAnsi_of_not_mem_esc h]
  · show String.mk (stripAnsi (stripAnsi s.data)) = String.mk (stripAnsi s.data)
    rw [stripAnsi_idem]

theorem C10_ansi_strip_witness :
    stripAnsiString "initializing bridge" = "initializing bridge" :=
  (C10_ansi_strip "initializing bridge").2.1 (by decide)

/-- Modelled from the spec: the `BlockTemplate` of §3 — the bridge core that
consumes it lives in the external `rustbridge` crate, absent from this
repository's sources. Only the identifying hash (used for clean-jobs
detection) and the compact target bits are relevant here. -/
structure BlockTemplate where
  idHash : ℕ
  targetBits : ℕ

/-- Modelled from the spec: the `Job` of §3 — "job id (monotonically
increasing integer, unique per process lifetime), ... target bits, a clean
jobs flag". -/
structure Job where
  id : ℕ
  targetBits : ℕ
  cleanJobs : Bool

/-- Modelled from the spec: the Job Builder's private state — the next job id
to assign and the identifying hash of the previously built template (§4.2). -/
structure JobBuilderState where
  nextId : ℕ
  lastHash : Option ℕ

/-- Modelled from the spec: `build_job(template) -> Job` (§4.2) — the Job
Builder "assigns the next job id, and sets the clean-jobs flag to true
whenever the previous template's identifying hash differs from the new one";
the implementation is in the external `rustbridge` crate. The builder returns
the job together with its successor state. -/
def build_job (st : JobBuilderState) (t : BlockTemplate) :
    Job × JobBuilderState :=
  ({ id := st.nextId, targetBits := t.targetBits,
     cleanJobs := st.lastHash != some t.idHash },
   { nextId := st.nextId + 1, lastHash := some t.idHash })

/-- Calling `build_job` once per template of a list, threading the builder
state. -/
def buildJobs (st : JobBuilderState) : List BlockTemplate → List Job
  | [] => []
  | t :: ts =>
    let p := build_job st t
    p.1 :: buildJobs p.2 ts

theorem buildJobs_map_id (st : JobBuilderState) (ts : List BlockTemplate) :
    (buildJobs st ts).map Job.id = List.range' st.nextId ts.length := by
  induction ts generalizing st with
  | nil => rfl
  | cons t ts ih =>
    simp only [buildJobs, build_job, List.map_cons, List.length_cons,
      List.range'_succ]
    exact congrArg (st.nextId :: ·) (ih _)

/-- C7: job ids assigned by `build_job` strictly increase over the lifetime of
a bridge instance — for every builder state and every list of N templates, the
N assigned ids are pairwise distinct and in ascending order, so no later job
ever receives an id less than or equal to an earlier one's. -/
theorem C7_job_ids_increasing (st : JobBuilderState)
    (ts : List BlockTemplate) :
    ((buildJobs st ts).map Job.id).Pairwise (· < ·) ∧
    (buildJobs st ts).length = ts.length := by
  constructor
  · rw [buildJobs_map_id]
    exact List.pairwise_lt_range' st.nextId ts.length
  · have h := congrArg List.length (buildJobs_map_id st ts)
    simpa using h

/-- Modelled from the spec: the VarDiff recomputation of §4.5 — "compute a new
difficulty by scaling proportionally to (observed rate / target rate), clamp
to the configured floor, and — if power-of-two clamping is enabled — round to
the nearest power of two"; the implementation is in the external `rustbridge`
crate. The power-of-two rounding is abstracted as a parameter; the clamp to
the configured floor is applied to the recomputation's final value, as §3's
invariant "a session's assigned difficulty is never below the configured
floor" requires. Difficulties and rates are exact rationals. -/
def varDiffRecompute (minDiff : ℚ) (pow2_clamp : Bool) (pow2round : ℚ → ℚ)
    (observed target d : ℚ) : ℚ :=
  let scaled := d * (observed / target)
  max minDiff (if pow2_clamp then pow2round scaled else scaled)

/-- Modelled from the spec: a session's difficulty over its lifetime (§4.3,
§4.5) — the initial difficulty is the configured floor, and each vardiff
recomputation event (an observed-rate/target-rate pair) updates it. -/
def sessionDifficulty (minDiff : ℚ) (pow2_clamp : Bool) (pow2round : ℚ → ℚ)
    (events : List (ℚ × ℚ)) : ℚ :=
  events.foldl (fun d e => varDiffRecompute minDiff pow2_clamp pow2round
    e.1 e.2 d) minDiff

theorem sessionDifficulty_foldl_ge (minDiff d : ℚ) (pow2_clamp : Bool)
    (pow2round : ℚ → ℚ) (events : List (ℚ × ℚ)) (hd : minDiff ≤ d) :
    minDiff ≤ events.foldl (fun d e => varDiffRecompute minDiff pow2_clamp
      pow2round e.1 e.2 d) d := by
  induction events generalizing d with
  | nil => exact hd
  | cons e es ih => exact ih _ (le_max_left _ _)

/-- C6: a live session's assigned difficulty is at least the configured
minimum share difficulty at every instant — every vardiff recomputation clamps
its result to the floor before pushing it, and the difficulty reached after
any sequence of recomputation events, starting from the initial assignment of
the floor itself, stays at or above the floor. -/
theorem C6_difficulty_floor (minDiff : ℚ) (pow2_clamp : Bool)
    (pow2round : ℚ → ℚ) :
    (∀ observed target d : ℚ,
      minDiff ≤ varDiffRecompute minDiff pow2_clamp pow2round
        observed target d) ∧
    (∀ events : List (ℚ × ℚ),
      minDiff ≤ sessionDifficulty minDiff pow2_clamp pow2round events) := by
  constructor
  · intro observed target d; exact le_max_left _ _
  · intro events
    exact sessionDifficulty_foldl_ge minDiff minDiff pow2_clamp pow2round
      events le_rfl

/-- Modelled from the spec: the Share Validator's rejection reasons (§4.4);
the implementation is in the external `rustbridge` crate. -/
inductive RejectReason where
  | stale
  | lowDifficulty
  | duplicate
deriving DecidableEq, Repr

/-- Modelled from the spec: the Share Validator's classification (§4.4) — a
share is rejected with a reason, or accepted, in which case it may
additionally be classified as a block. -/
inductive ShareOutcome where
  | rejected (r : RejectReason)
  | accepted (isBlock : Bool)
deriving DecidableEq, Repr

/-- Modelled from the spec: a submitted share (§3) — the referenced job id and
the miner-supplied nonce. -/
structure Share where
  jobId : ℕ
  nonce : ℕ

/-- Modelled from the spec: the per-session validation state (§3, §4.4) — the
session's extranonce, its assigned difficulty target (a hash qualifies when it
is at or below the target), and the (job id, extranonce, nonce) tuples already
seen for duplicate detection. -/
structure SessionState where
  extranonce : ℕ
  sessionTarget : ℕ
  seen : List (ℕ × ℕ × ℕ)

/-- Modelled from the spec: `validate(session, share)` (§4.4); the
implementation is in the external `rustbridge` crate. In spec order: resolve
the job id against the retained jobs (unknown id → stale); hash the header
spliced from the job, the session's extranonce and the share's nonce via the
injected Hash/PoW Oracle; compare against the session's assigned target
(miss → low difficulty); check for a duplicate (job id, extranonce, nonce)
tuple; finally classify as a block iff the same hash also meets the network
target derived from the job's target bits. -/
def validate (oracle : Job → ℕ → ℕ → ℕ) (bitsToTarget : ℕ → ℕ)
    (jobs : List Job) (sess : SessionState) (share : Share) : ShareOutcome :=
  match jobs.find? (fun j => j.id == share.jobId) with
  | none => .rejected .stale
  | some job =>
    let h := oracle job sess.extranonce share.nonce
    if sess.sessionTarget < h then .rejected .lowDifficulty
    else if (share.jobId, sess.extranonce, share.nonce) ∈ sess.seen then
      .rejected .duplicate
    else .accepted (decide (h ≤ bitsToTarget job.targetBits))

/-- Modelled from the spec: only shares classified as `Block` are handed to
the Block Submitter (§4.4 step 6). -/
def handedToBlockSubmitter : ShareOutcome → Bool
  | .accepted true => true
  | _ => false

/-- C8: for every session and submitted share whose job id resolves, whose
(job id, extranonce, nonce) tuple is fresh, and whose hash meets the session's
assigned difficulty target — if the hash also meets the network target derived
from the job's target bits, the share is classified Accepted-and-Block and
handed to the Block Submitter; if the hash falls strictly between the session
target and the network target, it is Accepted but not Block and not handed
off. -/
theorem C8_share_classification (oracle : Job → ℕ → ℕ → ℕ)
    (bitsToTarget : ℕ → ℕ) (jobs : List Job) (sess : SessionState)
    (share : Share) (job : Job)
    (hres : jobs.find? (fun j => j.id == share.jobId) = some job)
    (hfresh : (share.jobId, sess.extranonce, share.nonce) ∉ sess.seen)
    (hmeets : oracle job sess.extranonce share.nonce ≤ sess.sessionTarget) :
    (oracle job sess.extranonce share.nonce ≤ bitsToTarget job.targetBits →
      validate oracle bitsToTarget jobs sess share = .accepted true ∧
      handedToBlockSubmitter
        (validate oracle bitsToTarget jobs sess share) = true) ∧
    (bitsToTarget job.targetBits < oracle job sess.extranonce share.nonce →
      validate oracle bitsToTarget jobs sess share = .accepted false ∧
      handedToBlockSubmitter
        (validate oracle bitsToTarget jobs sess share) = false) := by
  have hval : validate oracle bitsToTarget jobs sess share =
      .accepted (decide (oracle job sess.extranonce share.nonce ≤
        bitsToTarget job.targetBits)) := by
    unfold validate
    rw [hres]
    dsimp only
    rw [if_neg (not_lt.mpr hmeets), if_neg hfresh]
  constructor
  · intro hblock
    rw [hval, decide_eq_true hblock]
    exact ⟨rfl, rfl⟩
  · intro hmiss
    rw [hval, decide_eq_false (not_le.mpr hmiss)]
    exact ⟨rfl, rfl⟩

theorem C8_share_classification_witness :
    validate (fun _ _ _ => 5) (fun b => b) [⟨1, 10, true⟩] ⟨0, 7, []⟩
      ⟨1, 3⟩ = ShareOutcome.accepted true :=
  ((C8_share_classification (fun _ _ _ => 5) (fun b => b) [⟨1, 10, true⟩]
      ⟨0, 7, []⟩ ⟨1, 3⟩ ⟨1, 10, true⟩
      rfl (by simp) (by decide)).1 (by decide)).1

end RustyKaspaStratum
